import Mathlib

/-!
Verification of the natural-language specification of the
Backend_Integrales repository (src/App.py) against a shallow embedding of
its two HTTP handlers, `calculate_integral` (POST /calculate-integral)
and `get_graph` (GET /get-graph).

The orchestration code of src/App.py is embedded concretely.  The
external capabilities it calls are handled as follows:
* sympy `sympify` is modelled by `App.sympify`, a tokenizer and
  recursive-descent parser over the Python expression grammar fragment
  the API exercises (identifiers, integer literals, `+ - * / **`,
  parentheses, calls of sin/cos/tan/exp/log/ln);
* sympy `integrate(f, x)` is modelled by `App.integrate` on the same
  fragment, falling back to an unevaluated-integral node exactly where
  sympy returns an unevaluated `Integral`;
* sympy definite integration, the numpy function table used by
  `lambdify`, and the matplotlib PNG encoder are kept abstract in an
  `Externals` structure, because the handler only forwards their results;
  `extModel` is a concrete instance used to evaluate the handlers on
  concrete requests.  Machine floats are modelled by exact rationals.
-/

namespace App

/-- Symbolic expressions: model of the sympy trees that `sympify`,
`integrate` and `lambdify` manipulate in src/App.py.  Following the sympy
representation, subtraction is `add` with a `-1` coefficient and division
is `pow` with exponent `-1`.  `funApp` covers calls of function names
outside the recognised set and `integralOf` covers antiderivatives the
integrator leaves unevaluated. -/
inductive SymExpr where
  | sym (name : String)
  | num (q : ℚ)
  | add (a b : SymExpr)
  | mul (a b : SymExpr)
  | pow (a b : SymExpr)
  | sin (a : SymExpr)
  | cos (a : SymExpr)
  | tan (a : SymExpr)
  | exp (a : SymExpr)
  | log (a : SymExpr)
  | funApp (f : String) (a : SymExpr)
  | integralOf (a : SymExpr)
deriving DecidableEq, Repr

/-- Tokens of the Python expression grammar fragment accepted by the
model of sympy `sympify`. -/
inductive Tok where
  | num (q : ℚ)
  | ident (s : String)
  | plus
  | minus
  | star
  | dstar
  | slash
  | lparen
  | rparen
deriving DecidableEq, Repr

/-- Numeric value of a run of decimal digit characters. -/
def digitsVal (ds : List Char) : Nat :=
  ds.foldl (fun n c => 10 * n + (c.toNat - 48)) 0

/-- Model of the tokenizer behind sympy `sympify`, restricted to the
characters the API grammar needs; any other character makes tokenization
fail, which surfaces as a `sympify` failure.  The fuel argument only
bounds recursion; `s.length + 1` is always enough. -/
def tokenize : Nat → List Char → Option (List Tok)
  | 0, _ => none
  | _ + 1, [] => some []
  | fuel + 1, c :: cs =>
    if c = ' ' then tokenize fuel cs
    else if c.isDigit then
      (tokenize fuel ((c :: cs).dropWhile Char.isDigit)).map
        (fun ts => Tok.num (digitsVal ((c :: cs).takeWhile Char.isDigit) : ℚ) :: ts)
    else if c.isAlpha then
      (tokenize fuel ((c :: cs).dropWhile Char.isAlphanum)).map
        (fun ts => Tok.ident (String.mk ((c :: cs).takeWhile Char.isAlphanum)) :: ts)
    else if c = '+' then (tokenize fuel cs).map (Tok.plus :: ·)
    else if c = '-' then (tokenize fuel cs).map (Tok.minus :: ·)
    else if c = '*' then
      match cs with
      | '*' :: cs2 => (tokenize fuel cs2).map (Tok.dstar :: ·)
      | _ => (tokenize fuel cs).map (Tok.star :: ·)
    else if c = '/' then (tokenize fuel cs).map (Tok.slash :: ·)
    else if c = '(' then (tokenize fuel cs).map (Tok.lparen :: ·)
    else if c = ')' then (tokenize fuel cs).map (Tok.rparen :: ·)
    else none

/-- Function names that `sympify` resolves to the corresponding sympy
functions (the namespace used at line 59 of src/App.py); `ln` is the
sympy alias of `log`.  Any other called name becomes `funApp`. -/
def applyFunc (s : String) (a : SymExpr) : SymExpr :=
  if s = "sin" then .sin a
  else if s = "cos" then .cos a
  else if s = "tan" then .tan a
  else if s = "exp" then .exp a
  else if s = "log" then .log a
  else if s = "ln" then .log a
  else .funApp s a

mutual

/-- Grammar rule for sums, `expr := term (('+'|'-') term)*`, with Python
subtraction represented as sympy does, `a - b = a + (-1)*b`. -/
def parseE : Nat → List Tok → Option (SymExpr × List Tok)
  | 0, _ => none
  | n + 1, ts => do
    let (a, ts1) ← parseT n ts
    parseEAux n a ts1

def parseEAux : Nat → SymExpr → List Tok → Option (SymExpr × List Tok)
  | 0, _, _ => none
  | n + 1, a, Tok.plus :: ts => do
    let (b, ts1) ← parseT n ts
    parseEAux n (.add a b) ts1
  | n + 1, a, Tok.minus :: ts => do
    let (b, ts1) ← parseT n ts
    parseEAux n (.add a (.mul (.num (-1)) b)) ts1
  | _ + 1, a, ts => some (a, ts)

/-- Grammar rule for products, `term := unary (('*'|'/') unary)*`, with
Python division represented as sympy does, `a / b = a * b**(-1)`. -/
def parseT : Nat → List Tok → Option (SymExpr × List Tok)
  | 0, _ => none
  | n + 1, ts => do
    let (a, ts1) ← parseU n ts
    parseTAux n a ts1

def parseTAux : Nat → SymExpr → List Tok → Option (SymExpr × List Tok)
  | 0, _, _ => none
  | n + 1, a, Tok.star :: ts => do
    let (b, ts1) ← parseU n ts
    parseTAux n (.mul a b) ts1
  | n + 1, a, Tok.slash :: ts => do
    let (b, ts1) ← parseU n ts
    parseTAux n (.mul a (.pow b (.num (-1)))) ts1
  | _ + 1, a, ts => some (a, ts)

/-- Unary `+`/`-`, binding looser than `**` on the left, as in Python. -/
def parseU : Nat → List Tok → Option (SymExpr × List Tok)
  | 0, _ => none
  | n + 1, Tok.minus :: ts =>
    (parseU n ts).map (fun r => (.mul (.num (-1)) r.1, r.2))
  | n + 1, Tok.plus :: ts => parseU n ts
  | n + 1, ts => parseP n ts

/-- Grammar rule for powers, `power := atom ('**' unary)?`, right
associative with a unary right-hand side, as in Python. -/
def parseP : Nat → List Tok → Option (SymExpr × List Tok)
  | 0, _ => none
  | n + 1, ts => do
    let (a, ts1) ← parseAtom n ts
    match ts1 with
    | Tok.dstar :: ts2 => do
      let (b, ts3) ← parseU n ts2
      some (SymExpr.pow a b, ts3)
    | _ => some (a, ts1)

/-- Atoms: number and identifier literals, calls `f(expr)` and
parenthesised expressions.  A bare identifier is a sympy `Symbol`. -/
def parseAtom : Nat → List Tok → Option (SymExpr × List Tok)
  | 0, _ => none
  | _ + 1, Tok.num q :: ts => some (SymExpr.num q, ts)
  | n + 1, Tok.ident s :: Tok.lparen :: ts => do
    let (arg, ts1) ← parseE n ts
    match ts1 with
    | Tok.rparen :: ts2 => some (applyFunc s arg, ts2)
    | _ => none
  | _ + 1, Tok.ident s :: ts => some (SymExpr.sym s, ts)
  | n + 1, Tok.lparen :: ts => do
    let (e, ts1) ← parseE n ts
    match ts1 with
    | Tok.rparen :: ts2 => some (e, ts2)
    | _ => none
  | _, _ => none

end

/-- Model of sympy `sympify` on the grammar fragment the API exercises:
tokenize, parse a full expression, and fail (like `SympifyError`) if
tokenization, parsing, or consuming the whole input fails. -/
def sympify (s : String) : Option SymExpr := do
  let toks ← tokenize (s.length + 1) s.toList
  match parseE (5 * toks.length + 5) toks with
  | some (e, []) => some e
  | _ => none

/-- Whether the integration variable x occurs in the expression. -/
def SymExpr.hasX : SymExpr → Bool
  | .sym s => s == "x"
  | .num _ => false
  | .add a b => a.hasX || b.hasX
  | .mul a b => a.hasX || b.hasX
  | .pow a b => a.hasX || b.hasX
  | .sin a => a.hasX
  | .cos a => a.hasX
  | .tan a => a.hasX
  | .exp a => a.hasX
  | .log a => a.hasX
  | .funApp _ a => a.hasX
  | .integralOf a => a.hasX

/-- Model of sympy `integrate(f, x)` on the fragment of expressions the
API exercises.  An expression not containing x integrates to itself times
x; sums integrate termwise; rational coefficients are pulled out and
merged the way sympy normalises `Mul`; the power, trigonometric,
exponential and logarithm rules match the closed forms sympy returns.
Anything else becomes an unevaluated `integralOf`, mirroring sympy
returning an unevaluated `Integral` object. -/
def integrate (f : SymExpr) : SymExpr :=
  if f.hasX = false then .mul f (.sym "x")
  else
    match f with
    | .add a b => .add (integrate a) (integrate b)
    | .mul (.num q) e =>
      match integrate e with
      | .mul (.num r) e2 => if q * r = 1 then e2 else .mul (.num (q * r)) e2
      | ie => .mul (.num q) ie
    | .sym _ => .mul (.num (1 / 2)) (.pow (.sym "x") (.num 2))
    | .pow (.sym "x") (.num n) =>
      if n = -1 then .log (.sym "x")
      else .mul (.num (1 / (n + 1))) (.pow (.sym "x") (.num (n + 1)))
    | .sin (.sym "x") => .mul (.num (-1)) (.cos (.sym "x"))
    | .cos (.sym "x") => .sin (.sym "x")
    | .tan (.sym "x") => .mul (.num (-1)) (.log (.cos (.sym "x")))
    | .exp (.sym "x") => .exp (.sym "x")
    | .log (.sym "x") => .add (.mul (.sym "x") (.log (.sym "x"))) (.mul (.num (-1)) (.sym "x"))
    | e => .integralOf e

/-- Printing of a rational number the way sympy `str` prints a
`Rational` or `Integer`. -/
def ratStr (q : ℚ) : String :=
  if q.den = 1 then toString q.num
  else toString q.num ++ "/" ++ toString q.den

/-- Printing of a rational coefficient applied to an already printed
factor, the way the sympy `StrPrinter` prints `Rational * expr`
(`x**3/3`, `-cos(x)`, `2*x/3`, ...). -/
def coeffStr (q : ℚ) (e : String) : String :=
  if q = 1 then e
  else if q = -1 then "-" ++ e
  else if q.den = 1 then toString q.num ++ "*" ++ e
  else if q.num = 1 then e ++ "/" ++ toString q.den
  else if q.num = -1 then "-" ++ e ++ "/" ++ toString q.den
  else toString q.num ++ "*" ++ e ++ "/" ++ toString q.den

/-- Whether sympy printing parenthesises this expression when it appears
as the base or exponent of a power. -/
def needsParens : SymExpr → Bool
  | .add _ _ => true
  | .mul _ _ => true
  | .num q => q < 0 || q.den ≠ 1
  | _ => false

/-- Model of sympy `str` on the expression shapes the code prints. -/
def symStr : SymExpr → String
  | .sym s => s
  | .num q => ratStr q
  | .add a (.mul (.num q) e) =>
    if q < 0 then symStr a ++ " - " ++ coeffStr (-q) (symStr e)
    else symStr a ++ " + " ++ coeffStr q (symStr e)
  | .add a (.num q) =>
    if q < 0 then symStr a ++ " - " ++ ratStr (-q)
    else symStr a ++ " + " ++ ratStr q
  | .add a b => symStr a ++ " + " ++ symStr b
  | .mul (.num q) e => coeffStr q (symStr e)
  | .mul a b => symStr a ++ "*" ++ symStr b
  | .pow a b =>
    (if needsParens a then "(" ++ symStr a ++ ")" else symStr a) ++ "**" ++
    (if needsParens b then "(" ++ symStr b ++ ")" else symStr b)
  | .sin a => "sin(" ++ symStr a ++ ")"
  | .cos a => "cos(" ++ symStr a ++ ")"
  | .tan a => "tan(" ++ symStr a ++ ")"
  | .exp a => "exp(" ++ symStr a ++ ")"
  | .log a => "log(" ++ symStr a ++ ")"
  | .funApp f a => f ++ "(" ++ symStr a ++ ")"
  | .integralOf a => "Integral(" ++ symStr a ++ ", x)"

/-- Replacement of the non-overlapping occurrences of a pattern, left to
right, on character lists.  The fuel only bounds recursion; for the
nonempty patterns the code uses, `length + 1` is always enough. -/
def replaceList (pat rep : List Char) : Nat → List Char → List Char
  | 0, s => s
  | _ + 1, [] => []
  | fuel + 1, c :: cs =>
    if pat.isPrefixOf (c :: cs) then rep ++ replaceList pat rep fuel ((c :: cs).drop pat.length)
    else c :: replaceList pat rep fuel cs

/-- Python `s.replace(pat, rep)`: non-overlapping occurrences replaced
left to right. -/
def pyReplace (s pat rep : String) : String :=
  String.mk (replaceList pat.toList rep.toList (s.length + 1) s.toList)

/-- Containment of a contiguous pattern in a character list. -/
def containsList (pat : List Char) : List Char → Bool
  | [] => pat.isPrefixOf []
  | c :: cs => pat.isPrefixOf (c :: cs) || containsList pat cs

/-- Python `needle in haystack` on strings. -/
def pyIn (needle haystack : String) : Bool :=
  containsList needle.toList haystack.toList

/-- Splitting at the non-overlapping occurrences of a separator, left to
right.  The fuel only bounds recursion; `length + 1` is always enough
for the nonempty separator the code uses. -/
def splitList (sep : List Char) : Nat → List Char → List (List Char)
  | 0, s => [s]
  | _ + 1, [] => [[]]
  | fuel + 1, c :: cs =>
    if sep.isPrefixOf (c :: cs) then
      [] :: splitList sep fuel ((c :: cs).drop sep.length)
    else
      match splitList sep fuel cs with
      | t :: rest => (c :: t) :: rest
      | [] => [[c]]

/-- Python `s.split(sep)` for a nonempty separator. -/
def pySplit (s sep : String) : List String :=
  (splitList sep.toList (s.length + 1) s.toList).map String.mk

/-- Python `s.strip()`: leading and trailing whitespace removed. -/
def pyStrip (s : String) : String :=
  String.mk (((s.toList.dropWhile Char.isWhitespace).reverse.dropWhile Char.isWhitespace).reverse)

/-- Python `s.startswith(pre)`. -/
def pyStartsWith (s pre : String) : Bool :=
  pre.toList.isPrefixOf s.toList

/-- The display rewriting applied throughout src/App.py:
`.replace("**", "^").replace("*", "\\,")`. -/
def latexFmt (s : String) : String :=
  pyReplace (pyReplace s "**" "^") "*" "\\,"

/-- The legend rewriting of lines 163 and 165 of src/App.py:
`.replace("**", "^").replace("*", " ")`. -/
def labelFmt (s : String) : String :=
  pyReplace (pyReplace s "**" "^") "*" " "

/-- The per-term rule classification of src/App.py lines 84-120: the
first match of the if/elif chain over substring tests wins. -/
def classifySteps (term : String) : List String :=
  if pyIn "sin" term || pyIn "cos" term || pyIn "tan" term then
    ("2. Aplicar la regla de integración trigonométrica a \\( " ++ latexFmt term ++ " \\):") ::
    (if pyIn "sin" term then ["   \\( \\int \\sin(x) \\, dx = -\\cos(x) \\)"]
     else if pyIn "cos" term then ["   \\( \\int \\cos(x) \\, dx = \\sin(x) \\)"]
     else if pyIn "tan" term then ["   \\( \\int \\tan(x) \\, dx = \\ln(\\cos(x)) \\)"]
     else [])
  else if pyIn "log" term || pyIn "ln" term then
    ["2. Aplicar la integración por partes a \\( " ++ latexFmt term ++ " \\):",
     "   \\( \\int \\ln(x) \\, dx = x \\ln(x) - x + C \\)"]
  else if pyIn "exp" term || pyIn "e^" term then
    ["2. Aplicar la regla de integración exponencial a \\( " ++ latexFmt term ++ " \\):",
     "   \\( \\int e^x \\, dx = e^x \\)"]
  else if pyIn "x**" term then
    ["2. Aplicar la regla de integración de potencias a \\( " ++ latexFmt term ++ " \\):",
     "   \\( \\int x^n \\, dx = \\frac\x7bx^\x7bn+1\x7d\x7d\x7bn+1\x7d \\)"]
  else if pyIn "x" term then
    ["2. Aplicar la regla de integración lineal a \\( " ++ latexFmt term ++ " \\):",
     "   \\( \\int ax \\, dx = \\frac\x7bax^2\x7d\x7b2\x7d \\)"]
  else
    ["2. Aplicar la regla para constantes a \\( " ++ latexFmt term ++ " \\):",
     "   \\( \\int a \\, dx = ax \\)"]

/-- The step list built in src/App.py lines 68-124: problem statement,
naive decomposition of the raw text on `+`, per-term canned rules, and
the summed result showing the computed antiderivative. -/
def explanationSteps (expression : String) (integrated_function : SymExpr) : List String :=
  let terms := pySplit expression "+"
  ("Problema: \\( \\int " ++ latexFmt expression ++ " \\, dx \\)") ::
  ((if terms.length > 1 then
      "1. Descomponer la integral en términos:" ::
        terms.map (fun term => "   \\( \\int " ++ latexFmt (pyStrip term) ++ " \\, dx \\)")
    else
      ["1. Resolver la integral directamente para \\( \\int " ++ latexFmt expression ++ " \\, dx \\)"]) ++
   ((terms.map (fun term => classifySteps (pyStrip term))).flatten ++
    ["3. Sumar los resultados parciales:",
     "   Resultado final: \\( " ++ latexFmt (symStr integrated_function) ++ " + C \\)"]))

/-- The figure handed to `plt.savefig`: the sampled curves and the legend
labels of the two `plt.plot` calls (lines 160-170 of src/App.py). -/
structure Plot where
  xVals : List ℚ
  origY : List ℚ
  intY : List ℚ
  origLabel : String
  intLabel : String
deriving DecidableEq, Repr

/-- The external capabilities the handler calls but does not implement:
sympy definite integration (which may raise, hence `Except`), the numpy
function table handed to `lambdify` (line 141), numpy fractional powers,
and the matplotlib PNG encoder behind `plt.savefig`.  Rationals stand in
for machine floats throughout. -/
structure Externals where
  integrate_def : SymExpr → ℚ → ℚ → Except String ℚ
  npSin : ℚ → ℚ
  npCos : ℚ → ℚ
  npTan : ℚ → ℚ
  npExp : ℚ → ℚ
  npLog : ℚ → ℚ
  npPow : ℚ → ℚ → ℚ
  savefig : Plot → List Nat

/-- Rational power with an integer exponent (numpy `**` where the
exponent is a whole number). -/
def qzpow (q : ℚ) : ℤ → ℚ
  | .ofNat m => q ^ m
  | .negSucc m => 1 / q ^ (m + 1)

/-- Pointwise numeric evaluation of a lambdified expression, using the
numpy function table of the `Externals`.  The `sym` case is only reached
for the variable x itself: `lambdifyEval` rejects every other free name
before evaluating. -/
def npEval (ext : Externals) : SymExpr → ℚ → ℚ
  | .sym _, v => v
  | .num q, _ => q
  | .add a b, v => npEval ext a v + npEval ext b v
  | .mul a b, v => npEval ext a v * npEval ext b v
  | .pow a b, v =>
    let bv := npEval ext b v
    if bv.den = 1 then qzpow (npEval ext a v) bv.num else ext.npPow (npEval ext a v) bv
  | .sin a, v => ext.npSin (npEval ext a v)
  | .cos a, v => ext.npCos (npEval ext a v)
  | .tan a, v => ext.npTan (npEval ext a v)
  | .exp a, v => ext.npExp (npEval ext a v)
  | .log a, v => ext.npLog (npEval ext a v)
  | .funApp _ a, v => npEval ext a v
  | .integralOf a, v => npEval ext a v

/-- First name in the expression that the lambdify namespace of line 141
of src/App.py does not define: a symbol other than x, a call of an
unrecognised function, or an unevaluated `Integral`.  Calling the
lambdified function with such a name raises `NameError`. -/
def SymExpr.badName : SymExpr → Option String
  | .sym s => if s == "x" then none else some s
  | .num _ => none
  | .add a b => (badName a).orElse (fun _ => badName b)
  | .mul a b => (badName a).orElse (fun _ => badName b)
  | .pow a b => (badName a).orElse (fun _ => badName b)
  | .sin a => badName a
  | .cos a => badName a
  | .tan a => badName a
  | .exp a => badName a
  | .log a => badName a
  | .funApp f _ => some f
  | .integralOf _ => some "Integral"

/-- The value a lambdified function returns when called on the sample
array: a numpy array when the expression broadcasts over x, a plain
scalar when the expression does not mention x. -/
inductive NpValue where
  | scalar (q : ℚ)
  | array (l : List ℚ)
deriving DecidableEq, Repr

/-- Python `len` applied to such a value: defined for arrays, a
`TypeError` for scalars. -/
def pyLen : NpValue → Except String Nat
  | .scalar _ => .error "object of type int has no len()"
  | .array l => .ok l.length

/-- The underlying list of samples (used only after the length checks,
so only ever on arrays). -/
def NpValue.toSamples : NpValue → List ℚ
  | .scalar q => [q]
  | .array l => l

/-- Model of calling a function produced by sympy `lambdify(x, f, table)`
on the numpy sample array: a free name outside the table raises
`NameError`; an expression containing x broadcasts elementwise to an
array; an x-free expression returns a plain scalar. -/
def lambdifyEval (ext : Externals) (f : SymExpr) (xs : List ℚ) : Except String NpValue :=
  match f.badName with
  | some nm => .error ("name " ++ nm ++ " is not defined")
  | none =>
    if f.hasX then .ok (.array (xs.map (npEval ext f))) else .ok (.scalar (npEval ext f 0))

/-- Model of `np.linspace(lo, hi, n)`, with rationals in place of
floats. -/
def linspace (lo hi : ℚ) (n : Nat) : List ℚ :=
  (List.range n).map (fun i => lo + (hi - lo) * (i : ℚ) / ((n : ℚ) - 1))

/-- The module-level `graph_buffer` BytesIO object: its PNG bytes and
its read position. -/
structure GraphBuffer where
  data : List Nat
  pos : Nat
deriving DecidableEq, Repr

/-- Process-wide state of the app: `graph_buffer`, `None` until the
first successful integration call. -/
abbrev ServerState := Option GraphBuffer

/-- The request model of src/App.py lines 31-34, with rationals in place
of the optional float bounds. -/
structure IntegralRequest where
  expression : String
  lower_limit : Option ℚ
  upper_limit : Option ℚ
deriving DecidableEq, Repr

/-- The value of the local `defined_integral` at the end of the handler:
the computed number, or Python `None` when a bound was missing. -/
inductive DefinedIntegral where
  | val (q : ℚ)
  | noLimits
deriving DecidableEq, Repr

/-- The string placed in the `defined_integral` response field (line 181
of src/App.py): `str(defined_integral)` when computed, otherwise the
fixed Spanish sentence. -/
def DefinedIntegral.render : DefinedIntegral → String
  | .val q => ratStr q
  | .noLimits => "No se proporcionaron límites"

/-- Body of a response of POST /calculate-integral: either the error
object `{"error": msg}` or the result object with its three fields. -/
inductive Response where
  | error (msg : String)
  | result (indefinite_integral : String) (defined_integral : DefinedIntegral)
      (explanation : List String)
deriving DecidableEq, Repr

def Response.indefinite? : Response → Option String
  | .result i _ _ => some i
  | .error _ => none

def Response.defined? : Response → Option DefinedIntegral
  | .result _ d _ => some d
  | .error _ => none

def Response.explanation? : Response → Option (List String)
  | .result _ _ e => some e
  | .error _ => none

def Response.isError : Response → Bool
  | .error _ => true
  | .result _ _ _ => false

/-- The POST /calculate-integral handler (src/App.py lines 49-183) as a
function from the request and the process-wide graph state to the
response body and the new graph state.  The structure follows the source
line by line: parse (with the `e**` → `exp` rewriting of line 59),
integrate, build the explanation steps, optionally compute the definite
integral (an exception short-circuits with its message, line 135),
lambdify and sample both functions over `linspace(-10, 10, 400)` (an
exception or a length mismatch short-circuits, line 158), and finally
store the rendered PNG in a fresh buffer whose cursor is reset to the
start (lines 173-175). -/
def calculate_integral (ext : Externals) (request : IntegralRequest)
    (graph_buffer : ServerState) : Response × ServerState :=
  match sympify (pyReplace request.expression "e**" "exp") with
  | none => (.error "Error en la expresión matemática proporcionada.", graph_buffer)
  | some original_function =>
    let integrated_function := integrate original_function
    let defStep : Except String (DefinedIntegral × List String) :=
      match request.lower_limit, request.upper_limit with
      | some a, some b =>
        match ext.integrate_def original_function a b with
        | .error e => .error ("Error al calcular la integral definida: " ++ e)
        | .ok dv =>
          .ok (.val dv,
            ["4. Valor de la integral definida con límites \\( " ++ ratStr a ++
               " \\) y \\( " ++ ratStr b ++ " \\):",
             "   \\( \\int_\x7b" ++ ratStr a ++ "\x7d^\x7b" ++ ratStr b ++ "\x7d " ++
               latexFmt request.expression ++ " \\, dx = " ++ ratStr dv ++ " \\)"])
      | _, _ => .ok (.noLimits, [])
    match defStep with
    | .error msg => (.error msg, graph_buffer)
    | .ok (defined_integral, definedSteps) =>
      let steps := explanationSteps request.expression integrated_function ++ definedSteps
      let X_vals := linspace (-10) 10 400
      match lambdifyEval ext original_function X_vals with
      | .error e => (.error ("Error al evaluar la función: " ++ e), graph_buffer)
      | .ok original_Y_vals =>
        match lambdifyEval ext integrated_function X_vals with
        | .error e => (.error ("Error al evaluar la función: " ++ e), graph_buffer)
        | .ok integrated_Y_vals =>
          match pyLen original_Y_vals with
          | .error e => (.error ("Error al evaluar la función: " ++ e), graph_buffer)
          | .ok lenO =>
            if lenO ≠ X_vals.length then
              (.error "Error al evaluar la función: La dimensión de X_vals no coincide con la de Y_vals.",
               graph_buffer)
            else
              match pyLen integrated_Y_vals with
              | .error e => (.error ("Error al evaluar la función: " ++ e), graph_buffer)
              | .ok lenI =>
                if lenI ≠ X_vals.length then
                  (.error "Error al evaluar la función: La dimensión de X_vals no coincide con la de Y_vals.",
                   graph_buffer)
                else
                  let buf := ext.savefig
                    { xVals := X_vals
                      origY := original_Y_vals.toSamples
                      intY := integrated_Y_vals.toSamples
                      origLabel := "Original: " ++ labelFmt request.expression
                      intLabel := "Integral: " ++ labelFmt (symStr integrated_function) }
                  (.result (latexFmt (symStr integrated_function)) defined_integral steps,
                   some ⟨buf, 0⟩)

/-- Body of a response of GET /get-graph: a streamed PNG body or the
error object. -/
inductive GraphResponse where
  | stream (data : List Nat)
  | error (msg : String)
deriving DecidableEq, Repr

/-- The GET /get-graph handler (src/App.py lines 186-193) together with
the effect of the host actually sending the `StreamingResponse`: the
BytesIO is read from its current position to its end, which leaves its
position at the end of the buffer.  The handler itself never resets the
position. -/
def get_graph : ServerState → GraphResponse × ServerState
  | none => (.error "No hay gráfica generada.", none)
  | some buf => (.stream (buf.data.drop buf.pos), some ⟨buf.data, buf.data.length⟩)

/-- The eight signature bytes every PNG stream starts with. -/
def pngSignature : List Nat := [137, 80, 78, 71, 13, 10, 26, 10]

/-- Exact evaluation of a symbolic expression at a rational point,
failing on transcendental parts: the ingredient of the concrete model of
sympy definite integration below. -/
def ratEval : SymExpr → ℚ → Except String ℚ
  | .sym s, v => if s == "x" then .ok v else .error ("free symbol " ++ s)
  | .num q, _ => .ok q
  | .add a b, v => do
    let va ← ratEval a v
    let vb ← ratEval b v
    pure (va + vb)
  | .mul a b, v => do
    let va ← ratEval a v
    let vb ← ratEval b v
    pure (va * vb)
  | .pow a b, v => do
    let va ← ratEval a v
    let vb ← ratEval b v
    if vb.den = 1 then pure (qzpow va vb.num) else .error "irrational power"
  | _, _ => .error "not a rational value"

/-- Concrete model of sympy `integrate(f, (x, a, b))` on the fragment
where the antiderivative evaluates exactly: the difference of the
antiderivative at the two bounds (the value sympy returns there). -/
def integrate_def_model (f : SymExpr) (a b : ℚ) : Except String ℚ := do
  let va ← ratEval (integrate f) a
  let vb ← ratEval (integrate f) b
  pure (vb - va)

/-- Concrete `Externals` instance used to run the handlers on concrete
requests.  Definite integration is the antiderivative-difference model
above; the transcendental numpy entries are placeholders that no claim
input reaches (their sampled values never influence a response field);
the PNG encoder is modelled as producing the PNG signature bytes, the
prefix matplotlib always emits. -/
def extModel : Externals where
  integrate_def := integrate_def_model
  npSin := fun _ => 0
  npCos := fun _ => 0
  npTan := fun _ => 0
  npExp := fun _ => 0
  npLog := fun _ => 0
  npPow := fun _ _ => 0
  savefig := fun _ => pngSignature

/-- An `Externals` instance whose definite integration always raises,
exhibiting the sympy-failure path of lines 133-135 of src/App.py. -/
def extFail : Externals :=
  { extModel with integrate_def := fun _ _ _ => Except.error "boom" }

set_option maxRecDepth 100000
set_option maxHeartbeats 1000000

/-- Claim C1: every request to POST /calculate-integral that produces an
error response — parse failure, definite-integral failure, or
numeric-evaluation/shape-mismatch failure — leaves the process-wide
graph buffer exactly as it was before the call. -/
theorem C1_error_leaves_graph_state (ext : Externals) (request : IntegralRequest)
    (st : ServerState) (msg : String)
    (h : (calculate_integral ext request st).1 = Response.error msg) :
    (calculate_integral ext request st).2 = st := by
  revert h
  simp only [calculate_integral]
  repeat' split
  all_goals intro h
  all_goals simp_all

/-- Witness for C1 at the unparseable expression `x+*` with a stored
graph: the error response leaves the stored graph in place. -/
theorem C1_error_leaves_graph_state_witness :
    (calculate_integral extModel ⟨"x+*", none, none⟩ (some ⟨[1, 2, 3], 0⟩)).2 =
      some ⟨[1, 2, 3], 0⟩ :=
  C1_error_leaves_graph_state extModel ⟨"x+*", none, none⟩ (some ⟨[1, 2, 3], 0⟩)
    "Error en la expresión matemática proporcionada." (by with_unfolding_all rfl)

/-- Claim C2 (corrected), counterexample: on the input `e**x` the line-59
rewriting produces the string `expx`, which parses as the single generic
symbol `expx`, not as the exponential function applied to x — so the
claim that every input containing `e**x` is parsed as exp(x) fails. -/
theorem C2_counterexample :
    pyReplace "e**x" "e**" "exp" = "expx" ∧
    sympify (pyReplace "e**x" "e**" "exp") = some (SymExpr.sym "expx") ∧
    ¬ sympify (pyReplace "e**x" "e**" "exp") = some (SymExpr.exp (SymExpr.sym "x")) := by
  refine ⟨by with_unfolding_all rfl, by with_unfolding_all rfl, ?_⟩
  with_unfolding_all decide

/-- Claim C2 (as amended): before parsing, every occurrence of `e**` is
rewritten to the literal string `exp` (not to a function call), so a
parenthesised power `e**(x)` parses as the exponential function exp(x)
and its integral is reported as `exp(x)`, while a bare `e**x` turns into
the identifier `expx` and parses as a generic symbol. -/
theorem C2_amended_exp_rewriting :
    pyReplace "e**(x)" "e**" "exp" = "exp(x)" ∧
    sympify "exp(x)" = some (SymExpr.exp (SymExpr.sym "x")) ∧
    pyReplace "e**x" "e**" "exp" = "expx" ∧
    sympify "expx" = some (SymExpr.sym "expx") ∧
    (∀ (ext : Externals) (st : ServerState),
      (calculate_integral ext ⟨"e**(x)", none, none⟩ st).1.indefinite? = some "exp(x)") := by
  refine ⟨by with_unfolding_all rfl, by with_unfolding_all rfl, by with_unfolding_all rfl,
    by with_unfolding_all rfl, ?_⟩
  intro ext st
  with_unfolding_all rfl

/-- Witness for C2 (amended) at the concrete externals instance. -/
theorem C2_amended_exp_rewriting_witness :
    (calculate_integral extModel ⟨"e**(x)", none, none⟩ none).1.indefinite? = some "exp(x)" :=
  C2_amended_exp_rewriting.2.2.2.2 extModel none

/-- Claim C3: a request whose expression fails to parse is answered with
the error object carrying exactly the fixed message, and with the graph
state untouched; the error constructor carries no explanation steps and
no integral fields. -/
theorem C3_parse_error_fixed_message (ext : Externals) (request : IntegralRequest)
    (st : ServerState)
    (h : sympify (pyReplace request.expression "e**" "exp") = none) :
    calculate_integral ext request st =
      (Response.error "Error en la expresión matemática proporcionada.", st) := by
  simp only [calculate_integral, h]

/-- Witness for C3 at the unparseable expression `x+*`. -/
theorem C3_parse_error_fixed_message_witness :
    calculate_integral extModel ⟨"x+*", none, none⟩ none =
      (Response.error "Error en la expresión matemática proporcionada.", none) :=
  C3_parse_error_fixed_message extModel ⟨"x+*", none, none⟩ none (by with_unfolding_all rfl)

/-- Claim C4: on every success response the indefinite_integral field is
the stringified antiderivative of the parsed expression with `**`
rewritten to `^` and remaining `*` to the LaTeX thin-space; in
particular the response for `x**2` carries exactly `x^3/3`. -/
theorem C4_indefinite_integral_format :
    (∀ (ext : Externals) (request : IntegralRequest) (st : ServerState) (f : SymExpr)
       (ind : String) (d : DefinedIntegral) (expl : List String),
       sympify (pyReplace request.expression "e**" "exp") = some f →
       (calculate_integral ext request st).1 = Response.result ind d expl →
       ind = latexFmt (symStr (integrate f))) ∧
    (calculate_integral extModel ⟨"x**2", none, none⟩ none).1.indefinite? = some "x^3/3" := by
  constructor
  · intro ext request st f ind d expl hp h
    revert h
    simp only [calculate_integral, hp]
    repeat' split
    all_goals intro h
    all_goals simp_all
  · with_unfolding_all rfl

/-- Witness for C4, instantiating the universal clause at `x**2`. -/
theorem C4_indefinite_integral_format_witness :
    "x^3/3" = latexFmt (symStr (integrate (SymExpr.pow (SymExpr.sym "x") (SymExpr.num 2)))) :=
  C4_indefinite_integral_format.1 extModel ⟨"x**2", none, none⟩ none
    (SymExpr.pow (SymExpr.sym "x") (SymExpr.num 2)) "x^3/3" DefinedIntegral.noLimits
    (explanationSteps "x**2" (integrate (SymExpr.pow (SymExpr.sym "x") (SymExpr.num 2))))
    (by with_unfolding_all rfl) (by with_unfolding_all rfl)

/-- Claim C5: the explanation of every success response starts with the
steps built from splitting the raw text on `+` and classifying each
trimmed term by the first-match substring precedence; for
`sin(x)+x**2` the explanation is exactly those steps, they contain the
decompose step, and exactly two classification steps — the
trigonometric one for `sin(x)` and the power-rule one for `x^2`. -/
theorem C5_explanation_structure :
    (∀ (ext : Externals) (request : IntegralRequest) (st : ServerState) (f : SymExpr)
       (ind : String) (d : DefinedIntegral) (expl : List String),
       sympify (pyReplace request.expression "e**" "exp") = some f →
       (calculate_integral ext request st).1 = Response.result ind d expl →
       (explanationSteps request.expression (integrate f)) <+: expl) ∧
    (calculate_integral extModel ⟨"sin(x)+x**2", none, none⟩ none).1.explanation? =
      some (explanationSteps "sin(x)+x**2"
        (integrate (SymExpr.add (SymExpr.sin (SymExpr.sym "x"))
          (SymExpr.pow (SymExpr.sym "x") (SymExpr.num 2))))) ∧
    "1. Descomponer la integral en términos:" ∈
      explanationSteps "sin(x)+x**2"
        (integrate (SymExpr.add (SymExpr.sin (SymExpr.sym "x"))
          (SymExpr.pow (SymExpr.sym "x") (SymExpr.num 2)))) ∧
    (explanationSteps "sin(x)+x**2"
        (integrate (SymExpr.add (SymExpr.sin (SymExpr.sym "x"))
          (SymExpr.pow (SymExpr.sym "x") (SymExpr.num 2))))).countP
      (fun s => pyStartsWith s "2. Aplicar") = 2 ∧
    "2. Aplicar la regla de integración trigonométrica a \\( sin(x) \\):" ∈
      explanationSteps "sin(x)+x**2"
        (integrate (SymExpr.add (SymExpr.sin (SymExpr.sym "x"))
          (SymExpr.pow (SymExpr.sym "x") (SymExpr.num 2)))) ∧
    "2. Aplicar la regla de integración de potencias a \\( x^2 \\):" ∈
      explanationSteps "sin(x)+x**2"
        (integrate (SymExpr.add (SymExpr.sin (SymExpr.sym "x"))
          (SymExpr.pow (SymExpr.sym "x") (SymExpr.num 2)))) := by
  refine ⟨?_, by with_unfolding_all rfl, by with_unfolding_all decide,
    by with_unfolding_all rfl, by with_unfolding_all decide, by with_unfolding_all decide⟩
  intro ext request st f ind d expl hp h
  revert h
  simp only [calculate_integral, hp]
  repeat' split
  all_goals intro h
  all_goals simp_all
  all_goals exact ⟨_, h.2.2⟩

/-- Witness for C5, instantiating the universal clause at
`sin(x)+x**2`. -/
theorem C5_explanation_structure_witness :
    (explanationSteps "sin(x)+x**2"
        (integrate (SymExpr.add (SymExpr.sin (SymExpr.sym "x"))
          (SymExpr.pow (SymExpr.sym "x") (SymExpr.num 2))))) <+:
      (explanationSteps "sin(x)+x**2"
        (integrate (SymExpr.add (SymExpr.sin (SymExpr.sym "x"))
          (SymExpr.pow (SymExpr.sym "x") (SymExpr.num 2))))) :=
  C5_explanation_structure.1 extModel ⟨"sin(x)+x**2", none, none⟩ none
    (SymExpr.add (SymExpr.sin (SymExpr.sym "x")) (SymExpr.pow (SymExpr.sym "x") (SymExpr.num 2)))
    "-cos(x) + x^3/3" DefinedIntegral.noLimits
    (explanationSteps "sin(x)+x**2"
      (integrate (SymExpr.add (SymExpr.sin (SymExpr.sym "x"))
        (SymExpr.pow (SymExpr.sym "x") (SymExpr.num 2)))))
    (by with_unfolding_all rfl) (by with_unfolding_all rfl)

/-- Claim C6: with both bounds supplied, the defined_integral of a
success response is the value of definite integration over the bounds
(for `x` on [0, 1] it is 0.5); with a bound missing it is Python `None`,
rendered as the fixed literal string. -/
theorem C6_defined_integral :
    (∀ (ext : Externals) (request : IntegralRequest) (st : ServerState) (a b : ℚ)
       (ind : String) (d : DefinedIntegral) (expl : List String),
       request.lower_limit = some a → request.upper_limit = some b →
       (calculate_integral ext request st).1 = Response.result ind d expl →
       ∃ f q, sympify (pyReplace request.expression "e**" "exp") = some f ∧
         ext.integrate_def f a b = Except.ok q ∧ d = DefinedIntegral.val q) ∧
    (calculate_integral extModel ⟨"x", some 0, some 1⟩ none).1.defined? =
      some (DefinedIntegral.val (1 / 2)) ∧
    (∀ (ext : Externals) (request : IntegralRequest) (st : ServerState)
       (ind : String) (d : DefinedIntegral) (expl : List String),
       (request.lower_limit = none ∨ request.upper_limit = none) →
       (calculate_integral ext request st).1 = Response.result ind d expl →
       d = DefinedIntegral.noLimits) ∧
    (calculate_integral extModel ⟨"x", some 0, none⟩ none).1.defined? =
      some DefinedIntegral.noLimits ∧
    DefinedIntegral.render DefinedIntegral.noLimits = "No se proporcionaron límites" := by
  refine ⟨?_, by with_unfolding_all rfl, ?_, by with_unfolding_all rfl, rfl⟩
  · intro ext request st a b ind d expl hl hu h
    revert h
    simp only [calculate_integral, hl, hu]
    repeat' split
    all_goals intro h
    all_goals simp_all
    all_goals aesop
  · intro ext request st ind d expl hnol h
    revert h
    simp only [calculate_integral]
    repeat' split
    all_goals intro h
    all_goals simp_all
    all_goals aesop

/-- Witness for C6, instantiating the both-bounds clause at `x` on
[0, 1], where the computed value is 1/2 = 0.5. -/
theorem C6_defined_integral_witness :
    ∃ f q, sympify (pyReplace "x" "e**" "exp") = some f ∧
      extModel.integrate_def f 0 1 = Except.ok q ∧
      DefinedIntegral.val (1 / 2) = DefinedIntegral.val q :=
  C6_defined_integral.1 extModel ⟨"x", some 0, some 1⟩ none 0 1 "x^2/2"
    (DefinedIntegral.val (1 / 2))
    (explanationSteps "x" (integrate (SymExpr.sym "x")) ++
      ["4. Valor de la integral definida con límites \\( 0 \\) y \\( 1 \\):",
       "   \\( \\int_\x7b0\x7d^\x7b1\x7d x \\, dx = 1/2 \\)"])
    rfl rfl (by with_unfolding_all rfl)

/-- Claim C7: when both bounds are supplied and definite integration
raises, the handler short-circuits with an error object that appends the
underlying failure message, the graph state is untouched, and the error
constructor carries none of the computed explanation steps. -/
theorem C7_definite_failure_short_circuit (ext : Externals) (request : IntegralRequest)
    (st : ServerState) (a b : ℚ) (f : SymExpr) (e : String)
    (hl : request.lower_limit = some a) (hu : request.upper_limit = some b)
    (hp : sympify (pyReplace request.expression "e**" "exp") = some f)
    (hd : ext.integrate_def f a b = Except.error e) :
    calculate_integral ext request st =
      (Response.error ("Error al calcular la integral definida: " ++ e), st) := by
  simp only [calculate_integral, hp, hl, hu, hd]

/-- Witness for C7 at an externals instance whose definite integration
raises with message `boom`. -/
theorem C7_definite_failure_short_circuit_witness :
    calculate_integral extFail ⟨"x", some 0, some 1⟩ none =
      (Response.error "Error al calcular la integral definida: boom", none) :=
  C7_definite_failure_short_circuit extFail ⟨"x", some 0, some 1⟩ none 0 1
    (SymExpr.sym "x") "boom" rfl rfl (by with_unfolding_all rfl) rfl

/-- Claim C8: GET /get-graph with no graph ever stored answers exactly
the fixed error object and leaves the state empty. -/
theorem C8_get_graph_empty_state :
    get_graph none = (GraphResponse.error "No hay gráfica generada.", none) := rfl

/-- Claim C9 (code bug): after a successful integration of `x` the first
GET /get-graph does stream the PNG from the start, but — because
get_graph never resets the BytesIO position and streaming leaves it at
the end — a second GET with no intervening integration streams from the
end of the buffer: an empty body that does not start with the PNG
signature, contradicting the required cursor-at-start invariant. -/
theorem C9_cursor_not_reset_on_repeat :
    (calculate_integral extModel ⟨"x", none, none⟩ none).2 = some ⟨pngSignature, 0⟩ ∧
    (get_graph (calculate_integral extModel ⟨"x", none, none⟩ none).2).1 =
      GraphResponse.stream pngSignature ∧
    (get_graph (get_graph (calculate_integral extModel ⟨"x", none, none⟩ none).2).2).1 =
      GraphResponse.stream [] ∧
    List.isPrefixOf pngSignature [] = false := by
  refine ⟨by with_unfolding_all rfl, by with_unfolding_all rfl, by with_unfolding_all rfl, rfl⟩

/-- Claim C10: a parseable expression in which x does not occur (a
constant expression) makes the lambdified original function return a
scalar over the 400 samples, so the length check raises and the handler
answers with an error prefixed by the evaluation-error message, storing
no graph — provided the preceding definite-integral step did not already
fail (with no bounds it is skipped, with bounds sympy succeeds on
constants). -/
theorem C10_constant_expression_eval_error (ext : Externals) (request : IntegralRequest)
    (st : ServerState) (f : SymExpr)
    (hp : sympify (pyReplace request.expression "e**" "exp") = some f)
    (hx : f.hasX = false) (hb : f.badName = none)
    (hlim : request.lower_limit = none ∨ request.upper_limit = none ∨
      ∃ a b q, request.lower_limit = some a ∧ request.upper_limit = some b ∧
        ext.integrate_def f a b = Except.ok q) :
    lambdifyEval ext f (linspace (-10) 10 400) =
      Except.ok (NpValue.scalar (npEval ext f 0)) ∧
    ∃ tail, calculate_integral ext request st =
      (Response.error ("Error al evaluar la función: " ++ tail), st) := by
  have hint : integrate f = SymExpr.mul f (SymExpr.sym "x") := by
    rw [integrate.eq_def, if_pos hx]
  have hle : lambdifyEval ext f (linspace (-10) 10 400) =
      Except.ok (NpValue.scalar (npEval ext f 0)) := by
    simp only [lambdifyEval, hb, hx]
    rfl
  have hb2 : (integrate f).badName = none := by
    rw [hint]
    simp only [SymExpr.badName, hb, Option.orElse]
    rfl
  have hx2 : (integrate f).hasX = true := by
    rw [hint]
    simp only [SymExpr.hasX, hx, Bool.false_or]
    rfl
  have hle2 : lambdifyEval ext (integrate f) (linspace (-10) 10 400) =
      Except.ok (NpValue.array ((linspace (-10) 10 400).map (npEval ext (integrate f)))) := by
    simp only [lambdifyEval, hb2, hx2]
    rfl
  refine ⟨hle, "object of type int has no len()", ?_⟩
  rcases hlim with h | h | ⟨a, b, q, ha, hbb, hq⟩
  · simp only [calculate_integral, hp, h, hle, hle2, pyLen]
  · rcases hl2 : request.lower_limit with _ | a2 <;>
      simp only [calculate_integral, hp, h, hl2, hle, hle2, pyLen]
  · simp only [calculate_integral, hp, ha, hbb, hq, hle, hle2, pyLen]

/-- Witness for C10 at the constant expression `5` with no bounds. -/
theorem C10_constant_expression_eval_error_witness :
    lambdifyEval extModel (SymExpr.num 5) (linspace (-10) 10 400) =
      Except.ok (NpValue.scalar (npEval extModel (SymExpr.num 5) 0)) ∧
    ∃ tail, calculate_integral extModel ⟨"5", none, none⟩ none =
      (Response.error ("Error al evaluar la función: " ++ tail), none) :=
  C10_constant_expression_eval_error extModel ⟨"5", none, none⟩ none (SymExpr.num 5)
    (by with_unfolding_all rfl) rfl rfl (Or.inl rfl)

end App
